import Mathlib

/-!
Verification of the voice-controller orchestrator (`controlcentre.py`):
wake-phrase gating, command classification, and the subprocess registry
(start / stop / status).  Python strings are modelled as Lean `String`s;
Python's substring test `w in t`, `str.lower`, `str.strip` and
`str.startswith` are modelled by structurally recursive functions on the
underlying character lists.  The mutable module-level dict
`running_procs` is modelled as an explicit map `Registry` threaded
through the registry operations, and the ambient OS (process liveness
probes, file existence, spawn results, exceptions raised by
terminate/wait/kill) is modelled by an explicit environment `Env`.
Each registry operation additionally returns the list of OS-level
actions it performed (spawn / terminate / kill), so that "no new
process is spawned" and "no termination is attempted" are provable
statements.
-/

namespace ControlCentre

/-- Model of Python's substring containment `n in h` on character lists:
the needle is a prefix of some suffix of the haystack. -/
def substrMemL (n : List Char) : List Char → Bool
  | [] => n.isEmpty
  | c :: t => n.isPrefixOf (c :: t) || substrMemL n t

/-- Python `needle in hay` for strings. -/
def substrMem (needle hay : String) : Bool :=
  substrMemL needle.data hay.data

/-- Python `s.lower()` (ASCII case folding, as used by the controller). -/
def lowerStr (s : String) : String := String.mk (s.data.map Char.toLower)

/-- Python `s.strip()`: drop whitespace from both ends. -/
def trimStr (s : String) : String :=
  String.mk (((s.data.dropWhile Char.isWhitespace).reverse.dropWhile
    Char.isWhitespace).reverse)

/-- Python `s.startswith(p)`. -/
def startsWithStr (s p : String) : Bool := p.data.isPrefixOf s.data

/-- `MODULE_NAMES` from controlcentre.py lines 26-31: the fixed table of
subprocess feature keys and their executable scripts. -/
def MODULE_NAMES : List (String × String) :=
  [("face", "facerecognition.py"),
   ("hand", "objectdetection.py"),
   ("object", "objectdetection.py"),
   ("servo", "objectdetection.py")]

/-- The `running_procs` dict: feature key to pid of the tracked process. -/
def Registry : Type := String → Option Nat

/-- `running_procs[k] = p` (dict assignment). -/
def regSet (st : Registry) (k : String) (pid : Nat) : Registry :=
  fun q => if q = k then some pid else st q

/-- `running_procs.pop(k, None)` (dict removal). -/
def regPop (st : Registry) (k : String) : Registry :=
  fun q => if q = k then none else st q

/-- The empty registry. -/
def regEmpty : Registry := fun _ => none

/-- OS-level actions a registry operation can perform. -/
inductive OsEvent where
  | spawn (script : String) (pid : Nat)
  | terminate (pid : Nat)
  | kill (pid : Nat)
deriving DecidableEq

/-- The ambient OS state the controller interacts with:
`pollExited pid` is true when `proc.poll()` returns an exit code (the
process has exited) and false when it returns `None` (still alive);
`scriptExists` is `os.path.exists` on the script file; `spawnResult` is
the pid `subprocess.Popen` produces, or `none` when `Popen` raises;
`terminateRaises` is true when `proc.terminate()` (or a non-timeout
failure of `proc.wait`) raises; `waitTimesOut` is true when
`proc.wait(timeout=2.0)` raises `TimeoutExpired`; `killRaises` is true
when the subsequent `proc.kill()` raises. -/
structure Env where
  pollExited : Nat → Bool
  scriptExists : String → Bool
  spawnResult : Option Nat
  terminateRaises : Bool
  waitTimesOut : Bool
  killRaises : Bool

/-- The `subprocess.Popen` attempt of `start_subprocess_module`
(lines 66-73): on success the new pid is recorded in the registry; when
`Popen` raises, the exception is caught and `None` is returned with the
registry untouched. -/
def spawnModule (env : Env) (st : Registry) (keyLower script : String) :
    Option Nat × Registry × List OsEvent :=
  match env.spawnResult with
  | none => (none, st, [])
  | some newPid =>
      (some newPid, regSet st keyLower newPid, [OsEvent.spawn script newPid])

/-- `start_subprocess_module` (controlcentre.py lines 53-73): look the
lowercased key up in `MODULE_NAMES` (unknown key: return `None`); check
the script file exists (missing: return `None`); if a registered process
for the key is still alive (`poll() is None`), return it unchanged;
otherwise spawn. -/
def start_subprocess_module (env : Env) (st : Registry) (key : String) :
    Option Nat × Registry × List OsEvent :=
  match MODULE_NAMES.lookup (lowerStr key) with
  | none => (none, st, [])
  | some script =>
    if env.scriptExists script then
      match st (lowerStr key) with
      | some pid =>
          if env.pollExited pid then spawnModule env st (lowerStr key) script
          else (some pid, st, [])
      | none => spawnModule env st (lowerStr key) script
    else (none, st, [])

/-- `stop_subprocess_module` (controlcentre.py lines 76-93): no handle
registered returns `False`; a handle whose process already exited is
popped without any termination attempt and `True` is returned; a live
handle gets `terminate()`, then `wait(timeout=2.0)`, then `kill()` on
timeout — if any of terminate/wait/kill raises, the exception handler
returns `False` WITHOUT popping the handle (the stale-handle path);
otherwise the handle is popped and `True` is returned. -/
def stop_subprocess_module (env : Env) (st : Registry) (key : String) :
    Bool × Registry × List OsEvent :=
  match st (lowerStr key) with
  | none => (false, st, [])
  | some pid =>
    if env.pollExited pid then (true, regPop st (lowerStr key), [])
    else if env.terminateRaises then (false, st, [OsEvent.terminate pid])
    else if env.waitTimesOut then
      (if env.killRaises then
        (false, st, [OsEvent.terminate pid, OsEvent.kill pid])
      else
        (true, regPop st (lowerStr key), [OsEvent.terminate pid, OsEvent.kill pid]))
    else (true, regPop st (lowerStr key), [OsEvent.terminate pid])

/-- The per-key status report of the controller loop (controlcentre.py
lines 206-209): "running" iff a handle is registered and its liveness
probe says the process has not exited. -/
def status_of (env : Env) (st : Registry) (k : String) : String :=
  match st k with
  | some pid => if env.pollExited pid then "stopped" else "running"
  | none => "stopped"

/-- The start-verb keyword set of `parse_start_stop_command` (line 101). -/
def startVerbs : List String := ["start", "run", "open", "launch"]

/-- The stop-verb keyword set of `parse_start_stop_command` (line 103). -/
def stopVerbs : List String := ["stop", "close", "terminate", "quit", "shutdown", "end"]

/-- The action computation of `parse_start_stop_command` (lines 100-104):
start-verbs are checked first, then the stop-verb check overwrites. -/
def actionOf (t : String) : Option String :=
  let afterStart : Option String :=
    if startVerbs.any (fun w => substrMem w t) then some "start" else none
  if stopVerbs.any (fun w => substrMem w t) then some "stop" else afterStart

/-- The target computation of `parse_start_stop_command` (lines 105-111):
three mutually exclusive noun groups, first match wins. -/
def targetOf (t : String) : Option String :=
  if substrMem "chat" t || substrMem "assistant" t || substrMem "bot" t then
    some "chatbot"
  else if substrMem "face" t || substrMem "recognize" t || substrMem "recognition" t then
    some "face"
  else if (["hand", "servo", "object", "finger"] : List String).any
      (fun w => substrMem w t) then
    some "hand"
  else none

/-- The chat-group target nouns (line 106). -/
def chatNouns : List String := ["chat", "assistant", "bot"]

/-- The face-group target nouns (line 108). -/
def faceNouns : List String := ["face", "recognize", "recognition"]

/-- The hand-group target nouns (line 110). -/
def handNouns : List String := ["hand", "servo", "object", "finger"]

/-- `parse_start_stop_command` (controlcentre.py lines 96-114).  The
Python computes `action` and `target` eagerly and then returns
`("status", None)` when "status" occurs in the lowercased text; both
computations are pure, so checking the status override first is
equivalent. -/
def parse_start_stop_command (text : String) : Option String × Option String :=
  if text = "" then (none, none)
  else if substrMem "status" (lowerStr text) then (some "status", none)
  else (actionOf (lowerStr text), targetOf (lowerStr text))

/-- The wake-phrase match of `listen_for_wakeword_fallback`
(controlcentre.py lines 142-146): the heard text is lowercased and
stripped, then must equal the wake word or start with the wake word
followed by a space. -/
def wake_match (wakeword text : String) : Bool :=
  trimStr (lowerStr text) == wakeword ||
    startsWithStr (trimStr (lowerStr text)) (wakeword ++ " ")

/-- Modelled from the spec (section 4.1 Wake Gate): the normalized
utterance must equal the wake phrase exactly, or start with the wake
phrase followed immediately by a separating space. -/
def wakeTriggersSpec (wakeword text : String) : Prop :=
  trimStr (lowerStr text) = wakeword ∨
    ∃ rest : String, trimStr (lowerStr text) = wakeword ++ " " ++ rest

/-- Claim C2: if the literal token "status" occurs anywhere in the
lowercased text, classification returns (status, none), regardless of any
start/stop verbs or target nouns also present. -/
theorem parse_status_override (text : String)
    (h : substrMem "status" (lowerStr text) = true) :
    parse_start_stop_command text = (some "status", none) := by
  have hne : text ≠ "" := by
    intro he
    rw [he] at h
    exact absurd h (by decide)
  simp [parse_start_stop_command, hne, h]

/-- Witness for C2: a text holding a start verb, a target noun and
"status" still classifies as (status, none). -/
theorem parse_status_override_witness :
    parse_start_stop_command "start the face status" = (some "status", none) :=
  parse_status_override "start the face status" (by decide)

/-- Claim C3: a text containing both a start-verb and a stop-verb and
not containing "status" classifies with action = stop. -/
theorem parse_stop_verb_precedence (text : String)
    (h1 : ∃ w ∈ startVerbs, substrMem w (lowerStr text) = true)
    (h2 : ∃ w ∈ stopVerbs, substrMem w (lowerStr text) = true)
    (h3 : substrMem "status" (lowerStr text) = false) :
    (parse_start_stop_command text).1 = some "stop" := by
  obtain ⟨w1, hw1, hm1⟩ := h1
  have hne : text ≠ "" := by
    intro he
    rw [he] at hm1
    have hall : ∀ w ∈ startVerbs, substrMem w (lowerStr "") = false := by decide
    rw [hall w1 hw1] at hm1
    exact Bool.false_ne_true hm1
  obtain ⟨w2, hw2, hm2⟩ := h2
  have hstop : stopVerbs.any (fun w => substrMem w (lowerStr text)) = true :=
    List.any_eq_true.mpr ⟨w2, hw2, hm2⟩
  simp [parse_start_stop_command, hne, h3, actionOf, hstop]

/-- Witness for C3: "open then close the hand" holds the start verb
"open" and the stop verb "close"; the action is stop. -/
theorem parse_stop_verb_precedence_witness :
    (parse_start_stop_command "open then close the hand").1 = some "stop" :=
  parse_stop_verb_precedence "open then close the hand"
    ⟨"open", by decide, by decide⟩ ⟨"close", by decide, by decide⟩ (by decide)

/-- Counterexample for C6: "start" holds a start verb but no target noun
and no "status", yet classification returns (start, none), not
(none, none) — so "no action OR no target implies (none, none)" is false
on the code. -/
theorem parse_partial_counterexample :
    substrMem "status" (lowerStr "start") = false ∧
    (∀ w ∈ chatNouns ++ faceNouns ++ handNouns,
      substrMem w (lowerStr "start") = false) ∧
    parse_start_stop_command "start" = (some "start", none) ∧
    parse_start_stop_command "start" ≠ (none, none) := by decide

/-- Claim C6 (amended): if no action verb was found AND no target noun
was found, and the text does not contain "status", classification
returns (none, none). -/
theorem parse_unrecognized_none_none (text : String)
    (hverbs : ∀ w ∈ startVerbs ++ stopVerbs, substrMem w (lowerStr text) = false)
    (hnouns : ∀ w ∈ chatNouns ++ faceNouns ++ handNouns,
      substrMem w (lowerStr text) = false)
    (hstatus : substrMem "status" (lowerStr text) = false) :
    parse_start_stop_command text = (none, none) := by
  by_cases hne : text = ""
  · simp [parse_start_stop_command, hne]
  · have hstart : startVerbs.any (fun w => substrMem w (lowerStr text)) = false := by
      rw [List.any_eq_false]
      intro w hw
      simp [hverbs w (List.mem_append_left _ hw)]
    have hstop : stopVerbs.any (fun w => substrMem w (lowerStr text)) = false := by
      rw [List.any_eq_false]
      intro w hw
      simp [hverbs w (List.mem_append_right _ hw)]
    have htarget : targetOf (lowerStr text) = none := by
      have c1 := hnouns "chat" (by decide)
      have c2 := hnouns "assistant" (by decide)
      have c3 := hnouns "bot" (by decide)
      have f1 := hnouns "face" (by decide)
      have f2 := hnouns "recognize" (by decide)
      have f3 := hnouns "recognition" (by decide)
      have d1 := hnouns "hand" (by decide)
      have d2 := hnouns "servo" (by decide)
      have d3 := hnouns "object" (by decide)
      have d4 := hnouns "finger" (by decide)
      simp [targetOf, c1, c2, c3, f1, f2, f3, d1, d2, d3, d4]
    simp [parse_start_stop_command, hne, hstatus, actionOf, hstart, hstop, htarget]

/-- Witness for C6 (amended): "hello there" holds no verb, no noun and
no "status"; classification returns (none, none). -/
theorem parse_unrecognized_none_none_witness :
    parse_start_stop_command "hello there" = (none, none) :=
  parse_unrecognized_none_none "hello there" (by decide) (by decide) (by decide)

/-- Claim C7: target classification is mutually exclusive with
first-match-wins precedence: the chat group wins over the face group,
which wins over the hand group; a text holding nouns from two groups
resolves to the earlier group's target. -/
theorem targetOf_first_match_wins (t : String) :
    ((substrMem "chat" t || substrMem "assistant" t || substrMem "bot" t) = true →
      targetOf t = some "chatbot") ∧
    ((substrMem "chat" t || substrMem "assistant" t || substrMem "bot" t) = false →
      (substrMem "face" t || substrMem "recognize" t || substrMem "recognition" t) = true →
      targetOf t = some "face") ∧
    ((substrMem "chat" t || substrMem "assistant" t || substrMem "bot" t) = false →
      (substrMem "face" t || substrMem "recognize" t || substrMem "recognition" t) = false →
      handNouns.any (fun w => substrMem w t) = true →
      targetOf t = some "hand") ∧
    targetOf "face chat" = some "chatbot" ∧
    targetOf "hand face" = some "face" := by
  refine ⟨?_, ?_, ?_, by decide, by decide⟩
  · intro h
    simp [targetOf, h]
  · intro h1 h2
    simp [targetOf, h1, h2]
  · intro h1 h2 h3
    simp only [handNouns] at h3
    simp [targetOf, h1, h2, h3]

/-- Witness for C7: "assistant" resolves to chatbot. -/
theorem targetOf_first_match_wins_witness :
    targetOf "assistant" = some "chatbot" :=
  (targetOf_first_match_wins "assistant").1 (by decide)

/-- Claim C4: the fallback wake gate triggers exactly when the
lowercased, trimmed utterance equals the wake phrase or starts with the
wake phrase followed immediately by a space; "jarvisson" does not
trigger, and "please say jarvis now" merely contains the phrase and
does not trigger. -/
theorem wake_match_iff_spec (wakeword text : String) :
    (wake_match wakeword text = true ↔ wakeTriggersSpec wakeword text) ∧
    wake_match "jarvis" "jarvis" = true ∧
    wake_match "jarvis" "jarvis turn on the light" = true ∧
    wake_match "jarvis" "jarvisson" = false ∧
    wake_match "jarvis" "please say jarvis now" = false ∧
    substrMem "jarvis" "please say jarvis now" = true := by
  refine ⟨?_, by decide, by decide, by decide, by decide, by decide⟩
  unfold wake_match wakeTriggersSpec startsWithStr
  simp only [Bool.or_eq_true, beq_iff_eq, List.isPrefixOf_iff_prefix]
  apply or_congr Iff.rfl
  constructor
  · rintro ⟨l, hl⟩
    refine ⟨String.mk l, String.ext ?_⟩
    rw [String.data_append]
    exact hl.symm
  · rintro ⟨rest, hr⟩
    refine ⟨rest.data, ?_⟩
    rw [hr]
    simp [String.data_append]

/-- Helper: a successful spawn records the new pid under the key. -/
theorem spawnModule_some_registered (env : Env) (st : Registry) (k s : String)
    (pid : Nat) (st' : Registry) (tr : List OsEvent)
    (h : spawnModule env st k s = (some pid, st', tr)) :
    st' k = some pid := by
  unfold spawnModule at h
  rcases hs : env.spawnResult with _ | newPid
  · rw [hs] at h
    simp at h
  · rw [hs] at h
    simp only [Prod.mk.injEq, Option.some.injEq] at h
    obtain ⟨hpid, hst, _⟩ := h
    rw [← hst]
    simp [regSet, hpid]

/-- Helper (inversion): a start call that returns a handle implies the
key is a known module whose script exists, and the resulting registry
maps the key to the returned pid. -/
theorem start_some_registered (env : Env) (st : Registry) (key : String)
    (pid : Nat) (st' : Registry) (tr : List OsEvent)
    (h : start_subprocess_module env st key = (some pid, st', tr)) :
    (∃ script, MODULE_NAMES.lookup (lowerStr key) = some script ∧
      env.scriptExists script = true) ∧
    st' (lowerStr key) = some pid := by
  unfold start_subprocess_module at h
  split at h
  · simp at h
  · rename_i script hm
    split at h
    · rename_i hex
      refine ⟨⟨script, hm, hex⟩, ?_⟩
      split at h
      · rename_i pid0 hr
        split at h
        · exact spawnModule_some_registered env st (lowerStr key) script pid st' tr h
        · simp only [Prod.mk.injEq, Option.some.injEq] at h
          obtain ⟨hpid, hst, _⟩ := h
          rw [← hst, hr, hpid]
      · rename_i hr
        exact spawnModule_some_registered env st (lowerStr key) script pid st' tr h
    · simp at h

/-- Claim C5: registry start is idempotent.  First part: a registered,
still-alive handle is returned unchanged, with no spawn and no registry
change.  Second part: two consecutive start calls while the first
returned handle is alive return the same handle, the second call
spawning nothing and changing nothing. -/
theorem start_idempotent :
    (∀ (env : Env) (st : Registry) (key script : String) (pid : Nat),
      MODULE_NAMES.lookup (lowerStr key) = some script →
      env.scriptExists script = true →
      st (lowerStr key) = some pid →
      env.pollExited pid = false →
      start_subprocess_module env st key = (some pid, st, [])) ∧
    (∀ (env : Env) (st st' : Registry) (key : String) (pid : Nat)
      (tr : List OsEvent),
      start_subprocess_module env st key = (some pid, st', tr) →
      env.pollExited pid = false →
      start_subprocess_module env st' key = (some pid, st', [])) := by
  have part1 : ∀ (env : Env) (st : Registry) (key script : String) (pid : Nat),
      MODULE_NAMES.lookup (lowerStr key) = some script →
      env.scriptExists script = true →
      st (lowerStr key) = some pid →
      env.pollExited pid = false →
      start_subprocess_module env st key = (some pid, st, []) := by
    intro env st key script pid hmod hex hreg halive
    simp [start_subprocess_module, hmod, hex, hreg, halive]
  refine ⟨part1, ?_⟩
  intro env st st' key pid tr h halive
  obtain ⟨⟨script, hmod, hex⟩, hreg⟩ := start_some_registered env st key pid st' tr h
  exact part1 env st' key script pid hmod hex hreg halive

/-- An environment in which every process is alive, every script file
exists, a spawn yields pid 9, and nothing raises. -/
def envAllLive : Env :=
  { pollExited := fun _ => false, scriptExists := fun _ => true,
    spawnResult := some 9, terminateRaises := false, waitTimesOut := false,
    killRaises := false }

/-- A registry in which only the hand feature has a handle (pid 5). -/
def regHandLive : Registry := fun q => if q = "hand" then some 5 else none

/-- Witness for C5: starting hand while its handle (pid 5) is alive
returns pid 5 with no spawn and no registry change. -/
theorem start_idempotent_witness :
    start_subprocess_module envAllLive regHandLive "hand" =
      (some 5, regHandLive, []) :=
  start_idempotent.1 envAllLive regHandLive "hand" "objectdetection.py" 5
    (by decide) rfl (by decide) rfl

/-- Claim C8: for a known feature key, a missing script file or an
OS-level spawn error makes start return none (the Python catches the
exception rather than raising), spawning nothing and leaving the
registry unchanged. -/
theorem start_spawn_failure_returns_none (env : Env) (st : Registry)
    (key script : String)
    (hmod : MODULE_NAMES.lookup (lowerStr key) = some script) :
    (env.scriptExists script = false →
      start_subprocess_module env st key = (none, st, [])) ∧
    (env.scriptExists script = true → env.spawnResult = none →
      (∀ pid, st (lowerStr key) = some pid → env.pollExited pid = true) →
      start_subprocess_module env st key = (none, st, [])) := by
  constructor
  · intro hex
    simp [start_subprocess_module, hmod, hex]
  · intro hex hsp hdead
    rcases hr : st (lowerStr key) with _ | pid0
    · simp [start_subprocess_module, hmod, hex, hr, spawnModule, hsp]
    · simp [start_subprocess_module, hmod, hex, hr, spawnModule, hsp,
        hdead pid0 hr]

/-- An environment with no script files on disk and failing spawns. -/
def envNoScript : Env :=
  { pollExited := fun _ => false, scriptExists := fun _ => false,
    spawnResult := none, terminateRaises := false, waitTimesOut := false,
    killRaises := false }

/-- Witness for C8: starting face with its script missing returns none
and changes nothing. -/
theorem start_spawn_failure_witness :
    start_subprocess_module envNoScript regEmpty "face" = (none, regEmpty, []) :=
  (start_spawn_failure_returns_none envNoScript regEmpty "face"
    "facerecognition.py" (by decide)).1 rfl

/-- Claim C9: stopping a key whose registered process already exited
attempts no termination (no OS events), removes the handle, and returns
true. -/
theorem stop_exited_no_terminate (env : Env) (st : Registry) (key : String)
    (pid : Nat)
    (hreg : st (lowerStr key) = some pid)
    (hexited : env.pollExited pid = true) :
    stop_subprocess_module env st key = (true, regPop st (lowerStr key), []) ∧
    (stop_subprocess_module env st key).2.1 (lowerStr key) = none := by
  have h1 : stop_subprocess_module env st key =
      (true, regPop st (lowerStr key), []) := by
    simp [stop_subprocess_module, hreg, hexited]
  refine ⟨h1, ?_⟩
  rw [h1]
  simp [regPop]

/-- An environment in which every process has already exited. -/
def envAllExited : Env :=
  { pollExited := fun _ => true, scriptExists := fun _ => true,
    spawnResult := some 9, terminateRaises := false, waitTimesOut := false,
    killRaises := false }

/-- Witness for C9: stopping hand whose process (pid 5) already exited
returns true, removing the handle with no termination events. -/
theorem stop_exited_no_terminate_witness :
    stop_subprocess_module envAllExited regHandLive "hand" =
      (true, regPop regHandLive (lowerStr "hand"), []) :=
  (stop_exited_no_terminate envAllExited regHandLive "hand" 5 (by decide) rfl).1

/-- Helper: a key outside the module table has no lookup entry. -/
theorem lookup_module_none (k : String)
    (h : k ∉ (["face", "hand", "object", "servo"] : List String)) :
    MODULE_NAMES.lookup k = none := by
  simp only [List.mem_cons, List.not_mem_nil, or_false, not_or] at h
  obtain ⟨h1, h2, h3, h4⟩ := h
  simp only [List.lookup_eq_none_iff]
  intro p hp
  simp only [ MODULE_NAMES, List.mem_cons, List.not_mem_nil, or_false] at hp
  rcases hp with hp | hp | hp | hp <;> subst hp <;> simp [h1, h2, h3, h4]

/-- Claim C10: a key not in the module table (case-insensitively not
one of face, hand, object, servo) makes start return none with no
spawn and an unchanged registry. -/
theorem start_unknown_key_noop (env : Env) (st : Registry) (key : String)
    (h : lowerStr key ∉ (["face", "hand", "object", "servo"] : List String)) :
    start_subprocess_module env st key = (none, st, []) := by
  simp [start_subprocess_module, lookup_module_none (lowerStr key) h]

/-- Witness for C10: "camera" is not a module key; start is a no-op. -/
theorem start_unknown_key_noop_witness :
    start_subprocess_module envAllLive regEmpty "camera" = (none, regEmpty, []) :=
  start_unknown_key_noop envAllLive regEmpty "camera" (by decide)

/-- An environment in which processes are alive and the graceful
terminate call raises. -/
def envTermRaises : Env :=
  { pollExited := fun _ => false, scriptExists := fun _ => true,
    spawnResult := some 9, terminateRaises := true, waitTimesOut := false,
    killRaises := false }

/-- A registry in which only the face feature has a handle (pid 7). -/
def regFaceLive : Registry := fun q => if q = "face" then some 7 else none

/-- Claim C1 (source gap, spec section 9): when the graceful-termination
step raises, stop_subprocess_module returns false WITHOUT removing the
handle from the registry, so a subsequent status still reports running —
contradicting the specified contract that the handle is always removed
after an attempted stop. -/
theorem stop_terminate_raise_keeps_handle :
    stop_subprocess_module envTermRaises regFaceLive "face" =
      (false, regFaceLive, [OsEvent.terminate 7]) ∧
    (stop_subprocess_module envTermRaises regFaceLive "face").2.1 "face" =
      some 7 ∧
    status_of envTermRaises
      (stop_subprocess_module envTermRaises regFaceLive "face").2.1 "face" =
      "running" := by
  have h1 : stop_subprocess_module envTermRaises regFaceLive "face" =
      (false, regFaceLive, [OsEvent.terminate 7]) := by
    simp [stop_subprocess_module, envTermRaises, regFaceLive,
      (by decide : lowerStr "face" = "face")]
  refine ⟨h1, ?_, ?_⟩
  · rw [h1]
    decide
  · rw [h1]
    simp [status_of, envTermRaises, regFaceLive]

end ControlCentre
